import Mathlib

/-!
Shallow embedding of the friend-relationship pipeline in
`src/server/pipeline_friend.go` (package `server` of the nakama repository).

User identifiers travel through the pipeline as raw uuid byte slices; we model
them as lists of bytes (`List Nat`).  The relevant relations of the store are:

* `user_edge (source_id, position, updated_at, destination_id, state)` with
  state `0` = CONNECTED and `3` = BLOCKED, modelled as a list of rows kept in
  insertion order (rows are appended at creation);
* `user_edge_metadata (source_id, count, updated_at)`, whose `source_id` is
  unique, modelled as a total map from user id to the `count` column (the
  `updated_at` column is never observed by any property below);
* `users`, modelled as a list of profile rows.

SQL statements become pure functions on this state.  `Exec` both returns a
rows-affected count and, in Go, may fail: a failing `Exec` returns a `nil`
result together with a non-nil error.  Statement-level failures are injected
through an explicit `Env` oracle (a list of booleans consumed one per
statement), so the error- and rollback paths of the Go code can be followed
faithfully, including the spots where the Go code reads `res.RowsAffected()`
without first checking the error (a nil-dereference panic when the statement
failed).
-/

namespace Nakama

/-- Raw user identifier bytes, as handed around by the pipeline
(`session.UserID().Bytes()`, `friendID.Bytes()`).  A valid uuid has exactly
16 bytes; `uuid.FromBytes` fails on any other length. -/
abbrev Uid := List Nat

/-- Profile columns of the `users` relation that the friend queries project
(the `User` message built by `querySocialGraph` / `getFriends`). -/
structure User where
  id : Uid
  handle : String
  fullname : String
  avatarUrl : String
  lang : String
  location : String
  timezone : String
  metadata : List Nat
  createdAt : Nat
  updatedAt : Nat
  lastOnlineAt : Nat
deriving DecidableEq, Repr

/-- A row of the `users` relation: the projected profile plus the
`facebook_id` column used by the import query. -/
structure UserRow where
  toUser : User
  facebookId : Option String
deriving DecidableEq, Repr

/-- A row of the `user_edge` relation. -/
structure EdgeRow where
  source : Uid
  dest : Uid
  position : Nat
  updatedAt : Nat
  state : Nat
deriving DecidableEq, Repr

/-- The store state visible to this pipeline: the `users` and `user_edge`
relations as row lists (in insertion order) and the `user_edge_metadata`
count keyed by its unique `source_id`. -/
structure DB where
  users : List UserRow
  edges : List EdgeRow
  meta : Uid → Int

/-- Rows of `user_edge` with the given source and destination, in stored
order; the `WHERE source_id = $1 AND destination_id = $2` restriction. -/
def edgesBetween (db : DB) (a b : Uid) : List EdgeRow :=
  db.edges.filter (fun e => e.source == a && e.dest == b)

/-- DELETE FROM user_edge WHERE source_id = $1 AND destination_id = $2,
returning the new state and the rows-affected count. -/
def deleteEdge (db : DB) (a b : Uid) : DB × Nat :=
  ({ db with edges := db.edges.filter (fun e => !(e.source == a && e.dest == b)) },
   db.edges.countP (fun e => e.source == a && e.dest == b))

/-- UPDATE user_edge SET state = st, updated_at = ts WHERE source_id = $1 AND
destination_id = $2, returning the rows-affected count. -/
def setEdgeState (db : DB) (a b : Uid) (st ts : Nat) : DB × Nat :=
  ({ db with edges := db.edges.map (fun e =>
      if e.source == a && e.dest == b then { e with state := st, updatedAt := ts } else e) },
   db.edges.countP (fun e => e.source == a && e.dest == b))

/-- DELETE FROM user_edge WHERE source_id = $1 AND destination_id = $2 AND
state != 3 (the guarded opposite-direction delete of `friendBlock`). -/
def deleteEdgeNotBlocked (db : DB) (a b : Uid) : DB × Nat :=
  ({ db with edges := db.edges.filter (fun e => !(e.source == a && e.dest == b && e.state != 3)) },
   db.edges.countP (fun e => e.source == a && e.dest == b && e.state != 3))

/-- UPDATE user_edge_metadata SET count = count - 1 WHERE source_id = u. -/
def decMeta (db : DB) (u : Uid) : DB :=
  { db with meta := fun v => if v == u then db.meta v - 1 else db.meta v }

/-- UPDATE user_edge_metadata SET count = count + 1 WHERE source_id IN us. -/
def incMetaAll (db : DB) (us : List Uid) : DB :=
  { db with meta := fun v => if us.contains v then db.meta v + 1 else db.meta v }

/-- UPDATE user_edge_metadata SET count = n WHERE source_id = u (the absolute
assignment issued by `addFacebookFriends` for the caller). -/
def setMeta (db : DB) (u : Uid) (n : Int) : DB :=
  { db with meta := fun v => if v == u then n else db.meta v }

/-- Failure oracle for the statements executed inside a transaction: each
`Exec` consumes one entry (`true` = the statement succeeds); once the list is
exhausted every further statement succeeds. -/
structure Env where
  faults : List Bool

/-- Outcome of the next statement together with the remaining oracle. -/
def Env.step : Env → Bool × Env
  | ⟨[]⟩ => (true, ⟨[]⟩)
  | ⟨b :: r⟩ => (b, ⟨r⟩)

/-- Messages the pipeline can send back on the session. -/
inductive Response where
  | badInput (msg : String)
  | runtimeExc (msg : String)
  | ok
deriving DecidableEq, Repr

/-- The authenticated actor, as exposed by `session.UserID()` and
`session.Handle()`. -/
structure Session where
  userId : Uid
  handle : String

/-- Result of the `friendRemove` transaction body: the Go code dereferences
the nil `Exec` result when an edge-delete statement fails, so a distinguished
crash outcome is needed next to the rolled-back and committed outcomes. -/
inductive RemoveResult where
  | panic
  | done (resp : Response) (db : DB)

/-- Response observed by the session, when the handler did not crash. -/
def RemoveResult.respOut : RemoveResult → Option Response
  | .panic => none
  | .done resp _ => some resp

/-- Visible store state after the transaction, with a default for the crash
case. -/
def RemoveResult.dbOut : RemoveResult → DB → DB
  | .panic, d => d
  | .done _ db, _ => db

/-- Second half of the `friendRemove` transaction (from the second
edge-delete on); `db0` is the state at `BEGIN`, restored on rollback. -/
def friendRemoveTx2 (env : Env) (db0 db : DB) (caller target : Uid) : RemoveResult :=
  let s3 := env.step
  if !s3.1 then .panic
  else
    let d3 := deleteEdge db target caller
    if d3.2 > 0 then
      let s4 := s3.2.step
      if !s4.1 then .done (.runtimeExc "Failed to remove friend") db0
      else .done .ok (decMeta d3.1 target)
    else .done .ok d3.1

/-- Transaction body of `friendRemove` (after validation and `BEGIN`):
delete caller→target, decrement the caller's count only if a row was removed,
then the same for target→caller; on a statement error the deferred handler
rolls back and sends a runtime failure — except that a failing edge-delete
`Exec` leaves `res = nil` and the unconditional `res.RowsAffected()` call
panics. -/
def friendRemoveTx (env : Env) (db : DB) (caller target : Uid) : RemoveResult :=
  let s1 := env.step
  if !s1.1 then .panic
  else
    let d1 := deleteEdge db caller target
    if d1.2 > 0 then
      let s2 := s1.2.step
      if !s2.1 then .done (.runtimeExc "Failed to remove friend") db
      else friendRemoveTx2 s2.2 db (decMeta d1.1 caller) caller target
    else friendRemoveTx2 s1.2 db d1.1 caller target

/-- The `friendRemove` handler: envelope validation, then the transaction.
Returns `none` when the transaction body panics. -/
def friendRemovePipe (env : Env) (db : DB) (s : Session) (userIds : List Uid) :
    Option (List Response × DB) :=
  match userIds with
  | [] => some ([.badInput "At least one user ID must be present"], db)
  | first :: _ =>
    if first.length == 0 then some ([.badInput "User ID must be present"], db)
    else if first.length != 16 then some ([.badInput "Invalid User ID"], db)
    else if first == s.userId then some ([.badInput "Cannot remove self"], db)
    else
      match friendRemoveTx env db s.userId first with
      | .panic => none
      | .done resp db2 => some ([resp], db2)

/-- Outcome of the `friendBlock` transaction: the response sent by the
deferred handler, and the visible store state (the `BEGIN` snapshot when the
transaction rolled back). -/
structure BlockOut where
  resp : Response
  db : DB

/-- Transaction body of `friendBlock` (after validation and `BEGIN`): set
caller→target to state 3; if no row was updated, fail ("User ID may not
exist") and roll back; otherwise delete target→caller unless that edge is
itself state 3, and decrement the target's count exactly when that delete
affected one row.  `friendBlock` checks every `Exec` error before touching
`RowsAffected`, so no panic outcome exists here. -/
def friendBlockTx (env : Env) (db : DB) (caller target : Uid) (ts : Nat) : BlockOut :=
  let s1 := env.step
  if !s1.1 then ⟨.runtimeExc "Could not block user", db⟩
  else
    let u1 := setEdgeState db caller target 3 ts
    if u1.2 == 0 then ⟨.runtimeExc "Could not block user", db⟩
    else
      let s2 := s1.2.step
      if !s2.1 then ⟨.runtimeExc "Could not block user", db⟩
      else
        let d2 := deleteEdgeNotBlocked u1.1 target caller
        if d2.2 == 1 then
          let s3 := s2.2.step
          if !s3.1 then ⟨.runtimeExc "Could not block user", db⟩
          else ⟨.ok, decMeta d2.1 target⟩
        else ⟨.ok, d2.1⟩

/-- The `friendBlock` handler: envelope validation, then the transaction. -/
def friendBlockPipe (env : Env) (db : DB) (s : Session) (userIds : List Uid) (ts : Nat) :
    List Response × DB :=
  match userIds with
  | [] => ([.badInput "At least one user ID must be present"], db)
  | first :: _ =>
    if first.length == 0 then ([.badInput "User ID must be present"], db)
    else if first.length != 16 then ([.badInput "Invalid User ID"], db)
    else if first == s.userId then ([.badInput "Cannot block self"], db)
    else
      let r := friendBlockTx env db s.userId first ts
      ([r.resp], r.db)

/-- One element of a `TFriendsAdd` request: the oneof may carry a user id, a
handle, or be unset (a nil interface in Go, matching no switch case). -/
inductive FriendAddItem where
  | byId (userId : Uid)
  | byHandle (handle : String)
  | unset

/-- Behaviour of the `friendAdd(logger, db, notifier, userID, handle,
friendID)` helper called by `friendAddById`.  That helper lives in another
file of the repository; the pipeline theorems quantify over an arbitrary
implementation, so they hold whatever it does. -/
abbrev AddFn := DB → Uid → String → Uid → Except Unit DB

/-- Behaviour of the `friendAddHandle` helper called by `friendAddByHandle`;
as with `AddFn`, the theorems quantify over an arbitrary implementation. -/
abbrev AddFnH := DB → Uid → String → String → Except Unit DB

/-- The `friendAddById` handler: reject an empty id, an id that is not a
valid uuid, and the caller's own id, before delegating to the `friendAdd`
helper. -/
def friendAddById (addFn : AddFn) (db : DB) (s : Session) (friendIdBytes : Uid) :
    List Response × DB :=
  if friendIdBytes.length == 0 then ([.badInput "User ID must be present"], db)
  else if friendIdBytes.length != 16 then ([.badInput "Invalid User ID"], db)
  else if friendIdBytes == s.userId then ([.badInput "Cannot add self"], db)
  else
    match addFn db s.userId s.handle friendIdBytes with
    | .error _ => ([.runtimeExc "Failed to add friend"], db)
    | .ok db2 => ([.ok], db2)

/-- The `friendAddByHandle` handler: reject an empty handle or the caller's
own handle, then delegate to the `friendAddHandle` helper. -/
def friendAddByHandle (addFnH : AddFnH) (db : DB) (s : Session) (friendHandle : String) :
    List Response × DB :=
  if friendHandle == "" || friendHandle == s.handle then
    ([.badInput "User handle must be present and not equal to user's handle"], db)
  else
    match addFnH db s.userId s.handle friendHandle with
    | .error _ => ([.runtimeExc "Failed to add friend"], db)
    | .ok db2 => ([.ok], db2)

/-- The `friendAdd` envelope handler: an empty list is a validation error;
otherwise only the first element is inspected, and its oneof decides the
branch — an unset oneof matches no case of the switch, so nothing at all is
sent. -/
def friendAddPipe (addFn : AddFn) (addFnH : AddFnH) (db : DB) (s : Session)
    (friends : List FriendAddItem) : List Response × DB :=
  match friends with
  | [] => ([.badInput "At least one friend must be present"], db)
  | f :: _ =>
    match f with
    | .byId b => friendAddById addFn db s b
    | .byHandle hh => friendAddByHandle addFnH db s hh
    | .unset => ([], db)

/-- A friend-list record: the peer's projected profile plus the `state`
column of the caller's outgoing edge. -/
structure Friend where
  user : User
  state : Nat
deriving DecidableEq, Repr

/-- The `getFriends` query with the filter used by `friendsList`:
SELECT (profile columns), state FROM users, user_edge WHERE
id = destination_id AND source_id = $1.  The join is evaluated by scanning
`user_edge` in stored (insertion) order and resolving the unique profile row
of each destination. -/
def getFriends (db : DB) (uid : Uid) : List Friend :=
  (db.edges.filter (fun e => e.source == uid)).filterMap (fun e =>
    (db.users.find? (fun u => u.toUser.id == e.dest)).map (fun u => ⟨u.toUser, e.state⟩))

/-- The friend list as the specification describes it: the caller's outgoing
edges ordered by their creation position, each joined with the peer profile
and annotated with the edge state. -/
def getFriendsSpecOrdered (db : DB) (uid : Uid) : List Friend :=
  ((db.edges.filter (fun e => e.source == uid)).insertionSort
      (fun a b => a.position ≤ b.position)).filterMap (fun e =>
    (db.users.find? (fun u => u.toUser.id == e.dest)).map (fun u => ⟨u.toUser, e.state⟩))

/-- Result of `addFacebookFriends`: the committed store state and the list of
matched user ids for which "friend joined" notifications are generated. -/
structure ImportOut where
  db : DB
  notified : List Uid

/-- The `addFacebookFriends` import (with the external friends already
fetched): match `facebook_id` against the fetched ids, and if any users
match, insert both mirrored CONNECTED edges per match, increment each matched
peer's count by one, and issue
UPDATE user_edge_metadata SET count = $1 ... for the caller with $1 = the
number of matches (`len(paramsEdge)-2`), all in one transaction; the matched
ids are kept for post-commit notifications. -/
def addFacebookFriends (db : DB) (caller : Uid) (ts : Nat) (fbFriends : List String) :
    ImportOut :=
  if fbFriends.length == 0 then ⟨db, []⟩
  else
    let matched := (db.users.filter (fun u =>
        match u.facebookId with
        | some f => fbFriends.contains f
        | none => false)).map (fun u => u.toUser.id)
    if matched.length == 0 then ⟨db, []⟩
    else
      let db1 := { db with
        edges := db.edges ++ matched.foldr (fun m acc =>
          ⟨caller, m, ts, ts, 0⟩ :: ⟨m, caller, ts, ts, 0⟩ :: acc) [] }
      let db2 := incMetaAll db1 matched
      let db3 := setMeta db2 caller (matched.length : Int)
      ⟨db3, matched⟩

/-- Store for the import theorem: the caller [9] is already connected to [8]
(its count is 1) and one registered user [1] carries the imported Facebook
id. -/
def dbC1 : DB :=
  ⟨[⟨⟨[1], "bob", "", "", "", "", "", [], 0, 0, 0⟩, some "fb1"⟩],
   [⟨[9], [8], 1, 1, 0⟩, ⟨[8], [9], 1, 1, 0⟩],
   fun v => if v == [9] then 1 else 0⟩

/-- Store used to instantiate the list-ordering theorem: user [1] has an
outgoing CONNECTED edge created at position 5 and an outgoing BLOCKED edge
created at position 9. -/
def dbC2 : DB :=
  ⟨[⟨⟨[2], "bob", "", "", "", "", "", [], 11, 12, 13⟩, none⟩,
    ⟨⟨[3], "eve", "", "", "", "", "", [], 21, 22, 23⟩, none⟩],
   [⟨[1], [2], 5, 5, 0⟩, ⟨[1], [3], 9, 9, 3⟩],
   fun _ => 2⟩

/-- Store used to instantiate the remove theorem: users 1 and 2 hold a
mirrored CONNECTED pair and each has count 3. -/
def dbC3 : DB := ⟨[], [⟨[1], [2], 5, 5, 0⟩, ⟨[2], [1], 5, 5, 0⟩], fun _ => 3⟩

/-- Store used to instantiate the mutual-block theorem. -/
def dbC4 : DB := ⟨[], [⟨[1], [2], 5, 5, 0⟩, ⟨[2], [1], 6, 6, 0⟩], fun _ => 1⟩

/-- Store used to instantiate the block-without-edge theorem. -/
def dbC5 : DB := ⟨[], [], fun _ => 0⟩

/-- Store used for the remove crash theorem: empty relations. -/
def dbC6 : DB := ⟨[], [], fun _ => 0⟩

/-- Store used to instantiate the block-on-already-blocked theorem. -/
def dbC7 : DB := ⟨[], [⟨[1], [2], 5, 5, 0⟩, ⟨[2], [1], 6, 6, 3⟩], fun _ => 1⟩

/-- Add helper that accepts every request and leaves the store unchanged;
used to instantiate the pipeline theorems. -/
def addFnNoop : AddFn := fun db _ _ _ => .ok db

/-- Handle-based add helper that accepts every request and leaves the store
unchanged. -/
def addFnHNoop : AddFnH := fun db _ _ _ => .ok db

/-- Empty store used to instantiate the pipeline validation theorems. -/
def dbC8 : DB := ⟨[], [], fun _ => 0⟩

/-- Concrete session used to instantiate the pipeline validation theorems. -/
def sC8 : Session := ⟨List.replicate 16 1, "alice"⟩

/-- Empty store used for the batch counterexample. -/
def dbC9 : DB := ⟨[], [], fun _ => 0⟩

/-- Concrete session used for the batch counterexample. -/
def sC9 : Session := ⟨List.replicate 16 7, "carol"⟩

lemma filter_sub_self (l : List EdgeRow) (p : EdgeRow → Bool) :
    (l.filter fun e => !(p e)).filter p = [] := by
  rw [List.filter_filter]
  apply List.filter_eq_nil_iff.mpr
  intro e _
  simp

lemma filter_sub_other (l : List EdgeRow) (p q : EdgeRow → Bool)
    (hpq : ∀ e, q e = true → p e = false) :
    (l.filter fun e => !(p e)).filter q = l.filter q := by
  rw [List.filter_filter]
  apply List.filter_congr
  intro e _
  cases hq : q e
  · simp
  · simp [hpq e hq]

lemma filter_map_self (l : List EdgeRow) (f : EdgeRow → EdgeRow) (q : EdgeRow → Bool)
    (h1 : ∀ e, q (f e) = q e) :
    (l.map f).filter q = (l.filter q).map f := by
  induction l with
  | nil => rfl
  | cons x xs ih =>
    simp only [List.map_cons, List.filter_cons, h1 x]
    cases hx : q x <;> simp [hx, ih]

lemma filter_map_other (l : List EdgeRow) (f : EdgeRow → EdgeRow) (q : EdgeRow → Bool)
    (h1 : ∀ e, q (f e) = q e) (h2 : ∀ e, q e = true → f e = e) :
    (l.map f).filter q = l.filter q := by
  rw [filter_map_self l f q h1]
  have : ∀ e ∈ l.filter q, f e = e := by
    intro e he
    exact h2 e (List.of_mem_filter he)
  calc (l.filter q).map f = (l.filter q).map id := List.map_congr_left this
    _ = l.filter q := List.map_id _

lemma deleteEdge_snd (db : DB) (a b : Uid) :
    (deleteEdge db a b).2 = (edgesBetween db a b).length := by
  simp [deleteEdge, edgesBetween, List.countP_eq_length_filter]

lemma deleteEdge_meta (db : DB) (a b : Uid) : (deleteEdge db a b).1.meta = db.meta := rfl

lemma edgesBetween_decMeta (db : DB) (u a b : Uid) :
    edgesBetween (decMeta db u) a b = edgesBetween db a b := rfl

lemma edgesBetween_deleteEdge_self (db : DB) (a b : Uid) :
    edgesBetween (deleteEdge db a b).1 a b = [] :=
  filter_sub_self db.edges _

lemma edgesBetween_deleteEdge_other (db : DB) (a b c d : Uid) (h : ¬(c = a ∧ d = b)) :
    edgesBetween (deleteEdge db a b).1 c d = edgesBetween db c d := by
  apply filter_sub_other
  intro e he
  simp only [Bool.and_eq_true, beq_iff_eq] at he
  rcases not_and_or.mp h with hc | hd
  · simp [he.1, hc]
  · simp [he.2, hd]

lemma deleteEdge_eq_self (db : DB) (a b : Uid) (h : edgesBetween db a b = []) :
    (deleteEdge db a b).1 = db := by
  have hfe : db.edges.filter (fun e => !(e.source == a && e.dest == b)) = db.edges := by
    apply List.filter_eq_self.mpr
    intro e he
    have hne := List.filter_eq_nil_iff.mp h e he
    have h2 : (e.source == a && e.dest == b) = false := by
      cases hc : (e.source == a && e.dest == b)
      · rfl
      · exact absurd hc hne
    simp [h2]
  show DB.mk db.users (db.edges.filter fun e => !(e.source == a && e.dest == b)) db.meta = db
  rw [hfe]

lemma setEdgeState_snd (db : DB) (a b : Uid) (st ts : Nat) :
    (setEdgeState db a b st ts).2 = (edgesBetween db a b).length := by
  simp [setEdgeState, edgesBetween, List.countP_eq_length_filter]

lemma setEdgeState_meta (db : DB) (a b : Uid) (st ts : Nat) :
    (setEdgeState db a b st ts).1.meta = db.meta := rfl

lemma edgesBetween_setEdgeState_self (db : DB) (a b : Uid) (st ts : Nat) :
    edgesBetween (setEdgeState db a b st ts).1 a b
      = (edgesBetween db a b).map (fun e => { e with state := st, updatedAt := ts }) := by
  unfold edgesBetween setEdgeState
  rw [filter_map_self]
  · apply List.map_congr_left
    intro e he
    have := List.of_mem_filter he
    simp only [this, if_pos rfl]
    simp only [Bool.and_eq_true] at this
    simp [this.1, this.2]
  · intro e
    cases hc : (e.source == a && e.dest == b) <;> simp [hc]

lemma edgesBetween_setEdgeState_other (db : DB) (a b c d : Uid) (st ts : Nat)
    (h : ¬(c = a ∧ d = b)) :
    edgesBetween (setEdgeState db a b st ts).1 c d = edgesBetween db c d := by
  unfold edgesBetween setEdgeState
  apply filter_map_other
  · intro e
    cases hc : (e.source == a && e.dest == b) <;> simp [hc]
  · intro e he
    simp only [Bool.and_eq_true, beq_iff_eq] at he
    have hp : (e.source == a && e.dest == b) = false := by
      rcases not_and_or.mp h with hc | hd
      · simp [he.1, hc]
      · simp [he.2, hd]
    simp [hp]

lemma deleteEdgeNotBlocked_snd (db : DB) (a b : Uid) :
    (deleteEdgeNotBlocked db a b).2
      = ((edgesBetween db a b).filter (fun e => e.state != 3)).length := by
  simp only [deleteEdgeNotBlocked, edgesBetween, List.countP_eq_length_filter,
    List.filter_filter]
  congr 1
  apply List.filter_congr
  intro e _
  cases h1 : (e.source == a) <;> cases h2 : (e.dest == b) <;> cases h3 : (e.state != 3) <;> rfl

lemma deleteEdgeNotBlocked_meta (db : DB) (a b : Uid) :
    (deleteEdgeNotBlocked db a b).1.meta = db.meta := rfl

lemma edgesBetween_deleteEdgeNotBlocked_self (db : DB) (a b : Uid) :
    edgesBetween (deleteEdgeNotBlocked db a b).1 a b
      = (edgesBetween db a b).filter (fun e => e.state == 3) := by
  simp only [edgesBetween, deleteEdgeNotBlocked, List.filter_filter]
  apply List.filter_congr
  intro e _
  cases h1 : (e.source == a) <;> cases h2 : (e.dest == b) <;> cases h3 : (e.state == 3) <;>
    simp [h1, h2, h3, bne]

lemma edgesBetween_deleteEdgeNotBlocked_other (db : DB) (a b c d : Uid)
    (h : ¬(c = a ∧ d = b)) :
    edgesBetween (deleteEdgeNotBlocked db a b).1 c d = edgesBetween db c d := by
  apply filter_sub_other
  intro e he
  simp only [Bool.and_eq_true, beq_iff_eq] at he
  rcases not_and_or.mp h with hc | hd
  · simp [he.1, hc]
  · simp [he.2, hd]

lemma friendAddById_length (addFn : AddFn) (db : DB) (s : Session) (b : Uid) :
    (friendAddById addFn db s b).1.length = 1 := by
  unfold friendAddById
  split
  · rfl
  · split
    · rfl
    · split
      · rfl
      · cases hfn : addFn db s.userId s.handle b <;> rfl

lemma friendAddByHandle_length (addFnH : AddFnH) (db : DB) (s : Session) (hh : String) :
    (friendAddByHandle addFnH db s hh).1.length = 1 := by
  unfold friendAddByHandle
  split
  · rfl
  · cases hfn : addFnH db s.userId s.handle hh <;> rfl

lemma friendRemoveTx_nofault (db : DB) (a b : Uid) :
    ∃ resp db2, friendRemoveTx ⟨[]⟩ db a b = .done resp db2 := by
  have hstep : Env.step ⟨[]⟩ = (true, ⟨[]⟩) := rfl
  simp only [friendRemoveTx, friendRemoveTx2, hstep]
  simp only [Bool.not_true, Bool.false_eq_true, if_false]
  split <;> split <;> exact ⟨_, _, rfl⟩

lemma friendRemovePipe_nofault_length (db : DB) (s : Session) (first : Uid)
    (rest : List Uid) :
    (friendRemovePipe ⟨[]⟩ db s (first :: rest)).map (fun out => out.1.length) = some 1 := by
  simp only [friendRemovePipe]
  split
  · rfl
  · split
    · rfl
    · split
      · rfl
      · obtain ⟨resp, db2, hr⟩ := friendRemoveTx_nofault db s.userId first
        rw [hr]
        rfl

lemma friendBlockPipe_length (env : Env) (db : DB) (s : Session) (first : Uid)
    (rest : List Uid) (ts : Nat) :
    (friendBlockPipe env db s (first :: rest) ts).1.length = 1 := by
  simp only [friendBlockPipe]
  split
  · rfl
  · split
    · rfl
    · split
      · rfl
      · rfl

/-- C3: a remove with a valid non-self target is a silent no-op when no edge
rows exist between the pair; on a mirrored CONNECTED pair it deletes both
directed edges, decrements both counts by exactly one and leaves no edge rows
between the pair; and each direction's count is only decremented when that
direction's delete removed a row. -/
theorem friendRemove_pairs (db : DB) (A B : Uid) (hne : A ≠ B) :
    (edgesBetween db A B = [] → edgesBetween db B A = [] →
       friendRemoveTx ⟨[]⟩ db A B = .done .ok db) ∧
    (∀ pab uab pba uba,
       edgesBetween db A B = [⟨A, B, pab, uab, 0⟩] →
       edgesBetween db B A = [⟨B, A, pba, uba, 0⟩] →
       (friendRemoveTx ⟨[]⟩ db A B).respOut = some .ok ∧
       edgesBetween ((friendRemoveTx ⟨[]⟩ db A B).dbOut db) A B = [] ∧
       edgesBetween ((friendRemoveTx ⟨[]⟩ db A B).dbOut db) B A = [] ∧
       ((friendRemoveTx ⟨[]⟩ db A B).dbOut db).meta A = db.meta A - 1 ∧
       ((friendRemoveTx ⟨[]⟩ db A B).dbOut db).meta B = db.meta B - 1) ∧
    (edgesBetween db A B = [] →
       ((friendRemoveTx ⟨[]⟩ db A B).dbOut db).meta A = db.meta A) ∧
    (edgesBetween db B A = [] →
       ((friendRemoveTx ⟨[]⟩ db A B).dbOut db).meta B = db.meta B) := by
  have hstep : Env.step ⟨[]⟩ = (true, ⟨[]⟩) := rfl
  have hABf : (A == B) = false := by simp [hne]
  have hBAf : (B == A) = false := by simp [Ne.symm hne]
  have hother1 : ¬(B = A ∧ A = B) := fun hc => hne hc.1.symm
  have hother2 : ¬(A = B ∧ B = A) := fun hc => hne hc.1
  refine ⟨?_, ?_, ?_, ?_⟩
  · intro hA hB
    have h1 : (deleteEdge db A B).1 = db := deleteEdge_eq_self db A B hA
    have hn1 : (deleteEdge db A B).2 = 0 := by rw [deleteEdge_snd, hA]; rfl
    have h2 : (deleteEdge db B A).1 = db := deleteEdge_eq_self db B A hB
    have hn2 : (deleteEdge db B A).2 = 0 := by rw [deleteEdge_snd, hB]; rfl
    simp [friendRemoveTx, friendRemoveTx2, hstep, hn1, h1, hn2, h2]
  · intro pab uab pba uba hA hB
    have hn1 : (deleteEdge db A B).2 = 1 := by rw [deleteEdge_snd, hA]; rfl
    have hBA1 : edgesBetween (decMeta (deleteEdge db A B).1 A) B A = edgesBetween db B A := by
      rw [edgesBetween_decMeta, edgesBetween_deleteEdge_other db A B B A hother1]
    have hn2 : (deleteEdge (decMeta (deleteEdge db A B).1 A) B A).2 = 1 := by
      rw [deleteEdge_snd, hBA1, hB]; rfl
    have hred : friendRemoveTx ⟨[]⟩ db A B
        = .done .ok (decMeta (deleteEdge (decMeta (deleteEdge db A B).1 A) B A).1 B) := by
      simp [friendRemoveTx, friendRemoveTx2, hstep, hn1, hn2]
    rw [hred]
    refine ⟨rfl, ?_, ?_, ?_, ?_⟩
    · show edgesBetween (decMeta (deleteEdge (decMeta (deleteEdge db A B).1 A) B A).1 B) A B = []
      rw [edgesBetween_decMeta, edgesBetween_deleteEdge_other _ B A A B hother2,
        edgesBetween_decMeta, edgesBetween_deleteEdge_self]
    · show edgesBetween (decMeta (deleteEdge (decMeta (deleteEdge db A B).1 A) B A).1 B) B A = []
      rw [edgesBetween_decMeta, edgesBetween_deleteEdge_self]
    · show (decMeta (deleteEdge (decMeta (deleteEdge db A B).1 A) B A).1 B).meta A
        = db.meta A - 1
      simp [decMeta, deleteEdge, hABf, hne]
    · show (decMeta (deleteEdge (decMeta (deleteEdge db A B).1 A) B A).1 B).meta B
        = db.meta B - 1
      simp [decMeta, deleteEdge, hBAf, Ne.symm hne]
  · intro hA
    have h1 : (deleteEdge db A B).1 = db := deleteEdge_eq_self db A B hA
    have hn1 : (deleteEdge db A B).2 = 0 := by rw [deleteEdge_snd, hA]; rfl
    simp only [friendRemoveTx, friendRemoveTx2, hstep, hn1, h1]
    by_cases h2 : (deleteEdge db B A).2 > 0
    · simp [h2, RemoveResult.dbOut, decMeta, deleteEdge_meta, hABf, hne]
    · simp [h2, RemoveResult.dbOut, deleteEdge_meta]
  · intro hB
    by_cases h1 : (deleteEdge db A B).2 > 0
    · have hBA1 : edgesBetween (decMeta (deleteEdge db A B).1 A) B A
          = edgesBetween db B A := by
        rw [edgesBetween_decMeta, edgesBetween_deleteEdge_other db A B B A hother1]
      have hn2 : (deleteEdge (decMeta (deleteEdge db A B).1 A) B A).2 = 0 := by
        rw [deleteEdge_snd, hBA1, hB]; rfl
      rw [show friendRemoveTx ⟨[]⟩ db A B
            = friendRemoveTx2 ⟨[]⟩ db (decMeta (deleteEdge db A B).1 A) A B from by
          simp only [friendRemoveTx, hstep]
          simp [h1]]
      rw [show friendRemoveTx2 ⟨[]⟩ db (decMeta (deleteEdge db A B).1 A) A B
            = .done .ok (deleteEdge (decMeta (deleteEdge db A B).1 A) B A).1 from by
          simp only [friendRemoveTx2, hstep]
          simp [hn2]]
      simp [RemoveResult.dbOut, deleteEdge_meta, decMeta, hBAf, Ne.symm hne]
    · have hn2 : (deleteEdge (deleteEdge db A B).1 B A).2 = 0 := by
        rw [deleteEdge_snd, edgesBetween_deleteEdge_other db A B B A hother1, hB]; rfl
      rw [show friendRemoveTx ⟨[]⟩ db A B
            = friendRemoveTx2 ⟨[]⟩ db (deleteEdge db A B).1 A B from by
          simp only [friendRemoveTx, hstep]
          simp [h1]]
      rw [show friendRemoveTx2 ⟨[]⟩ db (deleteEdge db A B).1 A B
            = .done .ok (deleteEdge (deleteEdge db A B).1 B A).1 from by
          simp only [friendRemoveTx2, hstep]
          simp [hn2]]
      simp [RemoveResult.dbOut, deleteEdge_meta]

/-- Witness for the remove theorem on a concrete mirrored pair. -/
theorem friendRemove_pairs_witness :
    (friendRemoveTx ⟨[]⟩ dbC3 [1] [2]).respOut = some .ok ∧
    edgesBetween ((friendRemoveTx ⟨[]⟩ dbC3 [1] [2]).dbOut dbC3) [1] [2] = [] ∧
    edgesBetween ((friendRemoveTx ⟨[]⟩ dbC3 [1] [2]).dbOut dbC3) [2] [1] = [] ∧
    ((friendRemoveTx ⟨[]⟩ dbC3 [1] [2]).dbOut dbC3).meta [1] = dbC3.meta [1] - 1 ∧
    ((friendRemoveTx ⟨[]⟩ dbC3 [1] [2]).dbOut dbC3).meta [2] = dbC3.meta [2] - 1 :=
  (friendRemove_pairs dbC3 [1] [2] (by decide)).2.1 5 5 5 5 (by decide) (by decide)

/-- C6: when an edge-delete Exec inside the remove transaction fails (first
or second statement), the Go handler reads RowsAffected from the nil result
and crashes instead of rolling back and answering with a runtime failure. -/
theorem friendRemove_exec_failure_panics :
    friendRemoveTx ⟨[false]⟩ dbC6 [1] [2] = .panic ∧
    friendRemoveTx ⟨[true, false]⟩ dbC6 [1] [2] = .panic := by
  exact ⟨rfl, rfl⟩

/-- C4: blocking with a mirrored CONNECTED pair in place turns the caller's
edge into state 3, deletes the reverse edge, decrements the target's count by
exactly one and leaves the caller's count unchanged. -/
theorem friendBlock_mutual (db : DB) (A B : Uid) (ts pab uab pba uba : Nat)
    (hne : A ≠ B)
    (hA : edgesBetween db A B = [⟨A, B, pab, uab, 0⟩])
    (hB : edgesBetween db B A = [⟨B, A, pba, uba, 0⟩]) :
    (friendBlockTx ⟨[]⟩ db A B ts).resp = .ok ∧
    edgesBetween (friendBlockTx ⟨[]⟩ db A B ts).db A B = [⟨A, B, pab, ts, 3⟩] ∧
    edgesBetween (friendBlockTx ⟨[]⟩ db A B ts).db B A = [] ∧
    (friendBlockTx ⟨[]⟩ db A B ts).db.meta B = db.meta B - 1 ∧
    (friendBlockTx ⟨[]⟩ db A B ts).db.meta A = db.meta A := by
  have hstep : Env.step ⟨[]⟩ = (true, ⟨[]⟩) := rfl
  have hother1 : ¬(B = A ∧ A = B) := fun hc => hne hc.1.symm
  have hother2 : ¬(A = B ∧ B = A) := fun hc => hne hc.1
  have hn1 : (setEdgeState db A B 3 ts).2 = 1 := by rw [setEdgeState_snd, hA]; rfl
  have hBA1 : edgesBetween (setEdgeState db A B 3 ts).1 B A = edgesBetween db B A :=
    edgesBetween_setEdgeState_other db A B B A 3 ts hother1
  have hn2 : (deleteEdgeNotBlocked (setEdgeState db A B 3 ts).1 B A).2 = 1 := by
    rw [deleteEdgeNotBlocked_snd, hBA1, hB]; rfl
  have hred : friendBlockTx ⟨[]⟩ db A B ts
      = ⟨.ok, decMeta (deleteEdgeNotBlocked (setEdgeState db A B 3 ts).1 B A).1 B⟩ := by
    simp only [friendBlockTx, hstep]
    simp [hn1, hn2]
  rw [hred]
  refine ⟨rfl, ?_, ?_, ?_, ?_⟩
  · show edgesBetween (decMeta (deleteEdgeNotBlocked (setEdgeState db A B 3 ts).1 B A).1 B) A B
      = [⟨A, B, pab, ts, 3⟩]
    rw [edgesBetween_decMeta, edgesBetween_deleteEdgeNotBlocked_other _ B A A B hother2,
      edgesBetween_setEdgeState_self, hA]
    rfl
  · show edgesBetween (decMeta (deleteEdgeNotBlocked (setEdgeState db A B 3 ts).1 B A).1 B) B A
      = []
    rw [edgesBetween_decMeta, edgesBetween_deleteEdgeNotBlocked_self, hBA1, hB]
    rfl
  · show (decMeta (deleteEdgeNotBlocked (setEdgeState db A B 3 ts).1 B A).1 B).meta B
      = db.meta B - 1
    simp [decMeta, deleteEdgeNotBlocked, setEdgeState]
  · show (decMeta (deleteEdgeNotBlocked (setEdgeState db A B 3 ts).1 B A).1 B).meta A
      = db.meta A
    simp [decMeta, deleteEdgeNotBlocked, setEdgeState, hne]

/-- Witness for the mutual-block theorem on a concrete mirrored pair. -/
theorem friendBlock_mutual_witness :
    (friendBlockTx ⟨[]⟩ dbC4 [1] [2] 9).resp = .ok ∧
    edgesBetween (friendBlockTx ⟨[]⟩ dbC4 [1] [2] 9).db [1] [2] = [⟨[1], [2], 5, 9, 3⟩] ∧
    edgesBetween (friendBlockTx ⟨[]⟩ dbC4 [1] [2] 9).db [2] [1] = [] ∧
    (friendBlockTx ⟨[]⟩ dbC4 [1] [2] 9).db.meta [2] = dbC4.meta [2] - 1 ∧
    (friendBlockTx ⟨[]⟩ dbC4 [1] [2] 9).db.meta [1] = dbC4.meta [1] :=
  friendBlock_mutual dbC4 [1] [2] 9 5 5 6 6 (by decide) (by decide) (by decide)

/-- C5: a block whose caller has no directed edge to the target fails with
the runtime "could not block" error and leaves the store untouched (the
transaction is rolled back). -/
theorem friendBlock_no_edge_error (db : DB) (A B : Uid) (ts : Nat)
    (h : edgesBetween db A B = []) :
    friendBlockTx ⟨[]⟩ db A B ts = ⟨.runtimeExc "Could not block user", db⟩ := by
  have hstep : Env.step ⟨[]⟩ = (true, ⟨[]⟩) := rfl
  have hn1 : (setEdgeState db A B 3 ts).2 = 0 := by rw [setEdgeState_snd, h]; rfl
  simp only [friendBlockTx, hstep]
  simp [hn1]

/-- Witness for the block-without-edge theorem. -/
theorem friendBlock_no_edge_error_witness :
    friendBlockTx ⟨[]⟩ dbC5 [1] [2] 9 = ⟨.runtimeExc "Could not block user", dbC5⟩ :=
  friendBlock_no_edge_error dbC5 [1] [2] 9 (by decide)

/-- C7: blocking a peer that has already blocked the caller turns the
caller's edge into state 3, leaves the peer's BLOCKED edge untouched and
changes neither count. -/
theorem friendBlock_peer_already_blocked (db : DB) (A B : Uid) (ts pab uab pba uba sab : Nat)
    (hne : A ≠ B)
    (hA : edgesBetween db A B = [⟨A, B, pab, uab, sab⟩])
    (hB : edgesBetween db B A = [⟨B, A, pba, uba, 3⟩]) :
    (friendBlockTx ⟨[]⟩ db A B ts).resp = .ok ∧
    edgesBetween (friendBlockTx ⟨[]⟩ db A B ts).db A B = [⟨A, B, pab, ts, 3⟩] ∧
    edgesBetween (friendBlockTx ⟨[]⟩ db A B ts).db B A = [⟨B, A, pba, uba, 3⟩] ∧
    (friendBlockTx ⟨[]⟩ db A B ts).db.meta A = db.meta A ∧
    (friendBlockTx ⟨[]⟩ db A B ts).db.meta B = db.meta B := by
  have hstep : Env.step ⟨[]⟩ = (true, ⟨[]⟩) := rfl
  have hother1 : ¬(B = A ∧ A = B) := fun hc => hne hc.1.symm
  have hother2 : ¬(A = B ∧ B = A) := fun hc => hne hc.1
  have hn1 : (setEdgeState db A B 3 ts).2 = 1 := by rw [setEdgeState_snd, hA]; rfl
  have hBA1 : edgesBetween (setEdgeState db A B 3 ts).1 B A = edgesBetween db B A :=
    edgesBetween_setEdgeState_other db A B B A 3 ts hother1
  have hn2 : (deleteEdgeNotBlocked (setEdgeState db A B 3 ts).1 B A).2 = 0 := by
    rw [deleteEdgeNotBlocked_snd, hBA1, hB]; rfl
  have hred : friendBlockTx ⟨[]⟩ db A B ts
      = ⟨.ok, (deleteEdgeNotBlocked (setEdgeState db A B 3 ts).1 B A).1⟩ := by
    simp only [friendBlockTx, hstep]
    simp [hn1, hn2]
  rw [hred]
  refine ⟨rfl, ?_, ?_, ?_, ?_⟩
  · show edgesBetween (deleteEdgeNotBlocked (setEdgeState db A B 3 ts).1 B A).1 A B
      = [⟨A, B, pab, ts, 3⟩]
    rw [edgesBetween_deleteEdgeNotBlocked_other _ B A A B hother2,
      edgesBetween_setEdgeState_self, hA]
    rfl
  · show edgesBetween (deleteEdgeNotBlocked (setEdgeState db A B 3 ts).1 B A).1 B A
      = [⟨B, A, pba, uba, 3⟩]
    rw [edgesBetween_deleteEdgeNotBlocked_self, hBA1, hB]
    rfl
  · rfl
  · rfl

/-- Witness for the block-on-already-blocked theorem. -/
theorem friendBlock_peer_already_blocked_witness :
    (friendBlockTx ⟨[]⟩ dbC7 [1] [2] 9).resp = .ok ∧
    edgesBetween (friendBlockTx ⟨[]⟩ dbC7 [1] [2] 9).db [1] [2] = [⟨[1], [2], 5, 9, 3⟩] ∧
    edgesBetween (friendBlockTx ⟨[]⟩ dbC7 [1] [2] 9).db [2] [1] = [⟨[2], [1], 6, 6, 3⟩] ∧
    (friendBlockTx ⟨[]⟩ dbC7 [1] [2] 9).db.meta [1] = dbC7.meta [1] ∧
    (friendBlockTx ⟨[]⟩ dbC7 [1] [2] 9).db.meta [2] = dbC7.meta [2] :=
  friendBlock_peer_already_blocked dbC7 [1] [2] 9 5 5 6 6 0 (by decide) (by decide) (by decide)

/-- C8: an add, remove or block whose first target is the caller itself (id
or handle) answers with the validation error and changes nothing — for every
behaviour of the add helper and every statement-failure oracle, so no
transaction statement is ever reached. -/
theorem selfTarget_rejected (db : DB) (s : Session) (env : Env) (addFn : AddFn)
    (addFnH : AddFnH) (rest : List FriendAddItem) (restIds : List Uid) (ts : Nat)
    (h : s.userId.length = 16) :
    friendAddPipe addFn addFnH db s (.byId s.userId :: rest)
      = ([.badInput "Cannot add self"], db) ∧
    friendAddPipe addFn addFnH db s (.byHandle s.handle :: rest)
      = ([.badInput "User handle must be present and not equal to user's handle"], db) ∧
    friendRemovePipe env db s (s.userId :: restIds)
      = some ([.badInput "Cannot remove self"], db) ∧
    friendBlockPipe env db s (s.userId :: restIds) ts
      = ([.badInput "Cannot block self"], db) := by
  refine ⟨?_, ?_, ?_, ?_⟩
  · simp [friendAddPipe, friendAddById, h]
  · simp [friendAddPipe, friendAddByHandle]
  · simp [friendRemovePipe, h]
  · simp [friendBlockPipe, h]

/-- Witness for the self-target theorem at a concrete session. -/
theorem selfTarget_rejected_witness :
    friendAddPipe addFnNoop addFnHNoop dbC8 sC8 [.byId sC8.userId]
      = ([.badInput "Cannot add self"], dbC8) ∧
    friendAddPipe addFnNoop addFnHNoop dbC8 sC8 [.byHandle sC8.handle]
      = ([.badInput "User handle must be present and not equal to user's handle"], dbC8) ∧
    friendRemovePipe ⟨[]⟩ dbC8 sC8 [sC8.userId]
      = some ([.badInput "Cannot remove self"], dbC8) ∧
    friendBlockPipe ⟨[]⟩ dbC8 sC8 [sC8.userId] 0
      = ([.badInput "Cannot block self"], dbC8) :=
  selfTarget_rejected dbC8 sC8 ⟨[]⟩ addFnNoop addFnHNoop [] [] 0 (by decide)

/-- C9 counterexample: a friend-add request carrying two entries whose first
entry has no oneof variant set produces zero outcome responses, not exactly
one. -/
theorem friendAdd_two_items_unset_first_no_response :
    (friendAddPipe addFnNoop addFnHNoop dbC9 sC9
        [.unset, .byId (List.replicate 16 9)]).1.length = 0 := rfl

/-- C9 as amended: only the first entry of a batch decides the outcome (the
remaining entries never influence response or store), an empty target list is
a validation error, and exactly one outcome response is sent — except that an
add whose first entry has no variant set sends no response at all, and a
remove whose transaction statements fail can crash instead of answering
(remove is therefore stated under a fault-free oracle). -/
theorem batch_single_item :
    (∀ addFn addFnH db s f rest,
       friendAddPipe addFn addFnH db s (f :: rest) = friendAddPipe addFn addFnH db s [f]) ∧
    (∀ env db s first rest,
       friendRemovePipe env db s (first :: rest) = friendRemovePipe env db s [first]) ∧
    (∀ env db s first rest ts,
       friendBlockPipe env db s (first :: rest) ts = friendBlockPipe env db s [first] ts) ∧
    (∀ addFn addFnH db s b rest,
       (friendAddPipe addFn addFnH db s (.byId b :: rest)).1.length = 1) ∧
    (∀ addFn addFnH db s hh rest,
       (friendAddPipe addFn addFnH db s (.byHandle hh :: rest)).1.length = 1) ∧
    (∀ addFn addFnH db s rest,
       friendAddPipe addFn addFnH db s (.unset :: rest) = ([], db)) ∧
    (∀ db s first rest,
       (friendRemovePipe ⟨[]⟩ db s (first :: rest)).map (fun out => out.1.length) = some 1) ∧
    (∀ env db s first rest ts,
       (friendBlockPipe env db s (first :: rest) ts).1.length = 1) ∧
    (∀ addFn addFnH db s,
       friendAddPipe addFn addFnH db s []
         = ([.badInput "At least one friend must be present"], db)) ∧
    (∀ env db s,
       friendRemovePipe env db s []
         = some ([.badInput "At least one user ID must be present"], db)) ∧
    (∀ env db s ts,
       friendBlockPipe env db s [] ts
         = ([.badInput "At least one user ID must be present"], db)) := by
  refine ⟨?_, ?_, ?_, ?_, ?_, ?_, ?_, ?_, ?_, ?_, ?_⟩
  · intro addFn addFnH db s f rest
    rfl
  · intro env db s first rest
    rfl
  · intro env db s first rest ts
    rfl
  · intro addFn addFnH db s b rest
    exact friendAddById_length addFn db s b
  · intro addFn addFnH db s hh rest
    exact friendAddByHandle_length addFnH db s hh
  · intro addFn addFnH db s rest
    rfl
  · intro db s first rest
    exact friendRemovePipe_nofault_length db s first rest
  · intro env db s first rest ts
    exact friendBlockPipe_length env db s first rest ts
  · intro addFn addFnH db s
    rfl
  · intro env db s
    rfl
  · intro env db s ts
    rfl

/-- C10: a friend-add whose first element has no oneof variant set matches no
switch case: nothing is mutated and nothing — not even an error — is sent. -/
theorem friendAdd_unset_oneof_silent (addFn : AddFn) (addFnH : AddFnH) (db : DB)
    (s : Session) (rest : List FriendAddItem) :
    friendAddPipe addFn addFnH db s (.unset :: rest) = ([], db) := rfl

/-- C2: with edge rows appended at creation time (so the stored rows of a
source are in nondecreasing position order), the friends list the pipeline
returns is exactly the creation-ordered join of the caller's outgoing edges
with the peer profiles, each record annotated with the edge's current state. -/
theorem friendsList_creation_order (db : DB) (uid : Uid)
    (hs : List.Sorted (fun a b => a.position ≤ b.position)
      (db.edges.filter (fun e => e.source == uid))) :
    getFriends db uid = getFriendsSpecOrdered db uid := by
  unfold getFriends getFriendsSpecOrdered
  rw [List.Sorted.insertionSort_eq hs]

/-- Witness for the list-ordering theorem on a concrete two-edge store. -/
theorem friendsList_creation_order_witness :
    getFriends dbC2 [1] = getFriendsSpecOrdered dbC2 [1] :=
  friendsList_creation_order dbC2 [1] (by decide)

/-- C1: importing one matched registered user commits the mirrored pair and
increments the matched peer's count by one, but the caller's count is
assigned the number of matches (1) instead of being incremented from its
prior value 1 to 2: the statement issues SET count = $1 with $1 = the match
count, although its own comment says it bumps the count by the number of new
friends. -/
theorem fbImport_caller_count_not_incremented :
    (addFacebookFriends dbC1 [9] 7 ["fb1", "fb2"]).db.meta [9] ≠ dbC1.meta [9] + 1 ∧
    (addFacebookFriends dbC1 [9] 7 ["fb1", "fb2"]).db.meta [9] = 1 ∧
    dbC1.meta [9] = 1 ∧
    (addFacebookFriends dbC1 [9] 7 ["fb1", "fb2"]).db.meta [1] = dbC1.meta [1] + 1 ∧
    edgesBetween (addFacebookFriends dbC1 [9] 7 ["fb1", "fb2"]).db [9] [1]
      = [⟨[9], [1], 7, 7, 0⟩] ∧
    edgesBetween (addFacebookFriends dbC1 [9] 7 ["fb1", "fb2"]).db [1] [9]
      = [⟨[1], [9], 7, 7, 0⟩] ∧
    (addFacebookFriends dbC1 [9] 7 ["fb1", "fb2"]).notified = [[1]] := by
  decide

end Nakama
